import Mathlib

/-!
# Verification of the solomon wealth-simulation engine

Shallow embedding of the simulation core found in `backend/domain.py` and
`backend/services.py`, together with theorems settling the specification
claims.  Monetary values are modelled as exact rationals (the source uses
binary floats; the claims under scrutiny are algebraic identities that are
stated "up to float tolerance", so exact arithmetic is the faithful
reading).  The monthly-rate conversion `(1+r)**(1/12) - 1` is kept as an
explicit parameter `toMonthly` of the simulation configuration, except in
the section on indexation where it is modelled exactly over the reals.
-/

/-! ## Time axis

`backend/domain.py` addresses months by `(year, month)` pairs and by the
dense key `year*100 + month`. -/

/-- Month key `y*100 + m`, as used throughout the Python code. -/
def monthKey (y m : ℤ) : ℤ := y * 100 + m

/-- Successor month, mirroring the `date` rollover at the end of the
simulation loop in `simulate_account_balances_and_total_wealth`. -/
def nextMonth (ym : ℤ × ℤ) : ℤ × ℤ :=
  if ym.2 = 12 then (ym.1 + 1, 1) else (ym.1, ym.2 + 1)

/-- Whether the `while` loop of the simulation continues at `(y, m)`:
`y < end_year or (y = end_year and m <= end_month)`. -/
def monthLE (y m ey em : ℤ) : Prop := y < ey ∨ (y = ey ∧ m ≤ em)

instance (y m ey em : ℤ) : Decidable (monthLE y m ey em) := by
  unfold monthLE; infer_instance

/-- Loop body of the month iteration, with an explicit step counter.  For
calendar-valid inputs (`m ∈ [1,12]`, as enforced by Python `date`) the
counter `(ey*12+em+1) - (y*12+m)` is exactly the number of iterations, so
the fuel never runs out and this equals the Python `while` loop. -/
def monthSeqAux (ey em : ℤ) : ℕ → ℤ → ℤ → List (ℤ × ℤ)
  | 0, _, _ => []
  | fuel + 1, y, m =>
    if monthLE y m ey em then
      (y, m) :: monthSeqAux ey em fuel (nextMonth (y, m)).1 (nextMonth (y, m)).2
    else []

/-- The list of months visited by the simulation loop, inclusive. -/
def monthSeq (y m ey em : ℤ) : List (ℤ × ℤ) :=
  monthSeqAux ey em (ey * 12 + em + 1 - (y * 12 + m)).toNat y m

/-! ## Python truthiness helpers

`if start and key < start:` treats `None` and `0` as absent. -/

/-- Python truthiness of an optional integer (`None` and `0` are falsy). -/
def truthyI : Option ℤ → Bool
  | none => false
  | some v => v ≠ 0

/-- Python truthiness of an optional string (`None` and `""` are falsy). -/
def truthyS : Option String → Bool
  | none => false
  | some s => s ≠ ""

/-! ## Accounts (`backend/domain.py`, class `Account`) -/

/-- One `growth_schedule` entry: a dict `{start, end, rate}` with optional
fields (`stop` stands for the Python key `end`, a Lean keyword). -/
structure GrowthEntry where
  start : Option ℤ
  stop : Option ℤ
  rate : Option ℚ
  deriving Repr, DecidableEq

/-- Static data of an `Account`.  `startYear`/`startMonth`/`endYear`/
`endMonth` bound the active window; runtime balance state lives in the
simulation state, not here. -/
structure AccountSpec where
  name : String
  base_annual_growth_rate : ℚ
  initial_balance : ℚ
  startYear : Option ℤ := none
  startMonth : Option ℤ := none
  endYear : Option ℤ := none
  endMonth : Option ℤ := none
  growth_schedule : List GrowthEntry := []
  deriving Repr, DecidableEq

/-- `_in_window` as written inside `Account.apply_growth`
(domain.py lines 48-55): when `start is None` it returns `True`
immediately, never looking at `end`. -/
def growth_in_window (key : ℤ) (start stop : Option ℤ) : Bool :=
  match start with
  | none => true
  | some s =>
    if key < s then false
    else
      match stop with
      | some e => decide (key ≤ e)
      | none => true

/-- Window membership as the specification words it (spec §4.1):
`contains(window, key) = (start is None or key ≥ start) and
(end is None or key ≤ end)`.  Second definition, kept for comparison
with `growth_in_window`. -/
def spec_contains (start stop : Option ℤ) (key : ℤ) : Bool :=
  (match start with
   | none => true
   | some s => decide (s ≤ key)) &&
  (match stop with
   | none => true
   | some e => decide (key ≤ e))

/-- Rate resolution in `Account.apply_growth`: first schedule entry whose
`rate` is present and whose window contains the key, else the base rate. -/
def growth_rate_for (schedule : List GrowthEntry) (base : ℚ) (key : ℤ) : ℚ :=
  match schedule with
  | [] => base
  | w :: rest =>
    match w.rate with
    | some r => if growth_in_window key w.start w.stop then r else growth_rate_for rest base key
    | none => growth_rate_for rest base key

/-- `Account.apply_growth` for an active month: resolve the annual rate,
convert it with `toMonthly` (the embedding of `(1+r)**(1/12)-1`) and add
`balance * monthly_rate`. -/
def apply_growth (toMonthly : ℚ → ℚ) (a : AccountSpec) (y m : ℤ) (balance : ℚ) : ℚ :=
  let rate := growth_rate_for a.growth_schedule a.base_annual_growth_rate (monthKey y m)
  balance + balance * toMonthly rate

/-- `Account.is_active`: inclusive window test, each bound only enforced
when both its year and month are configured. -/
def is_active (a : AccountSpec) (current_month current_year : ℤ) : Bool :=
  (match a.startYear, a.startMonth with
   | some sy, some sm => decide (current_year > sy ∨ (current_year = sy ∧ current_month ≥ sm))
   | _, _ => true) &&
  (match a.endYear, a.endMonth with
   | some ey, some em => decide (current_year < ey ∨ (current_year = ey ∧ current_month ≤ em))
   | _, _ => true)

/-- **C7.**  The window test used by `Account.apply_growth` disagrees with
the specification's `contains`: with `start = None` and `end = 202406` the
code reports the key `202501 > end` as inside the window, and compounding
resolves the schedule rate `1/2` instead of the base rate `0`. -/
theorem growth_window_ignores_end :
    growth_in_window 202501 none (some 202406) = true
    ∧ spec_contains none (some 202406) 202501 = false
    ∧ growth_rate_for [⟨none, some 202406, some (1/2)⟩] 0 202501 = 1/2
    ∧ growth_rate_for [⟨none, some 202406, some (1/2)⟩] 0 202406 = 1/2 :=
  ⟨rfl, rfl, rfl, rfl⟩

/-! ## Transactions (`backend/domain.py`, classes `Transaction`,
`RegularTransaction`, `OneTimeTransaction`) -/

/-- One `inflation_schedule` entry `{start, end, pct}`. -/
structure InflEntry where
  start : Option ℤ
  stop : Option ℤ
  pct : Option ℚ
  deriving Repr, DecidableEq

/-- Transaction kind: `OneTimeTransaction` vs `RegularTransaction`. -/
inductive TxKind where
  | one_time
  | regular
  deriving Repr, DecidableEq

/-- Standard (non-mortgage) transaction.  `amount` is the constructor
argument (`original_amount` for regular transactions); `month`/`year` are
the start month/year, `endMonth`/`endYear` the end bounds used only by
regular transactions.  `frequency` carries the already-clamped
`max(1, frequency or 1)` value.  `tax_effect`, `internal`, `tx_type` and
`id` mirror the attributes set by `services._create_transaction_instance`
and `services._build_transactions`. -/
structure Tx where
  name : String
  amount : ℚ
  month : ℤ
  year : ℤ
  endMonth : ℤ := 0
  endYear : ℤ := 0
  frequency : ℕ := 1
  annual_growth_rate : ℚ := 0
  internal : Bool := false
  tax_effect : ℚ := 0
  inflation_schedule : List InflEntry := []
  tx_type : Option String := none
  id : Option String := none
  kind : TxKind
  deriving Repr, DecidableEq

/-- Months elapsed since the transaction's start:
`(current_year - self.year) * 12 + (current_month - self.month)`. -/
def Tx.months_since (t : Tx) (cm cy : ℤ) : ℤ :=
  (cy - t.year) * 12 + (cm - t.month)

/-- `RegularTransaction.get_amount_for_period`: the indexed amount after
`periods_elapsed = total_months // frequency` periods, compounding the
monthly indexation factor `1 + toMonthly annual_growth_rate` per period.
Python `//` is floor division, hence `Int.fdiv`. -/
def Tx.get_amount_for_period (toMonthly : ℚ → ℚ) (t : Tx) (cm cy : ℤ) : ℚ :=
  let periods_elapsed := Int.fdiv (t.months_since cm cy) (t.frequency : ℤ)
  t.amount * (1 + toMonthly t.annual_growth_rate) ^ periods_elapsed

/-- `is_applicable` of the two standard transaction classes: equality of
month and year for one-time transactions; window membership plus
`months_since_start % frequency == 0` for regular ones. -/
def Tx.is_applicable (t : Tx) (cm cy : ℤ) : Bool :=
  match t.kind with
  | .one_time => decide (t.month = cm ∧ t.year = cy)
  | .regular =>
    let starts := decide (cy > t.year ∨ (cy = t.year ∧ cm ≥ t.month))
    let ends := decide (cy < t.endYear ∨ (cy = t.endYear ∧ cm ≤ t.endMonth))
    if starts && ends then decide (t.months_since cm cy % (t.frequency : ℤ) = 0)
    else false

/-- The value of `self.amount` at the time `adjusted_amount` reads it: for
regular transactions `is_applicable` has just overwritten it with
`get_amount_for_period`, one-time transactions keep the constructor
amount. -/
def Tx.effective_base (toMonthly : ℚ → ℚ) (t : Tx) (cm cy : ℤ) : ℚ :=
  match t.kind with
  | .one_time => t.amount
  | .regular => t.get_amount_for_period toMonthly cm cy

/-- `if start and current_key < start:` — the start bound is skipped for a
Python-falsy (`None` or `0`) start. -/
def start_excludes (start : Option ℤ) (key : ℤ) : Bool :=
  match start with
  | some s => decide (s ≠ 0) && decide (key < s)
  | none => false

/-- `if end is not None and current_key > end:`. -/
def stop_excludes (stop : Option ℤ) (key : ℤ) : Bool :=
  match stop with
  | some ev => decide (key > ev)
  | none => false

/-- The inflation-schedule loop of `Transaction.adjusted_amount`: the first
entry with a `pct` whose window admits the key multiplies the amount by
`1 + pct` (once). -/
def infl_adjust (key : ℤ) (amt : ℚ) : List InflEntry → ℚ
  | [] => amt
  | e :: rest =>
    match e.pct with
    | none => infl_adjust key amt rest
    | some p =>
      if start_excludes e.start key then infl_adjust key amt rest
      else if stop_excludes e.stop key then infl_adjust key amt rest
      else amt * (1 + p)

/-- `Transaction.adjusted_amount` as invoked right after a successful
`is_applicable` in the simulation loop. -/
def Tx.adjusted_amount (toMonthly : ℚ → ℚ) (t : Tx) (cm cy : ℤ) : ℚ :=
  infl_adjust (cy * 100 + cm) (t.effective_base toMonthly cm cy) t.inflation_schedule

/-! ## Mortgage-interest transactions
(`backend/domain.py`, class `MortgageInterestTransaction`) -/

/-- Mortgage-interest transaction.  Accounts are referenced by their index
in the simulation's account list (the Python objects are shared by
reference).  `rate_schedule` entries are the `(start_key, end_key, rate)`
triples built in `services._build_transactions`, where `start_key` was
already coalesced with `or 0`. -/
structure MortTx where
  name : String
  mortgageIdx : ℕ
  payIdx : ℕ
  annual_interest_rate : ℚ
  frequency : ℕ := 1
  month : ℤ
  year : ℤ
  endMonth : ℤ
  endYear : ℤ
  rate_schedule : List (ℤ × Option ℤ × Option ℚ) := []
  taxable : Bool := false
  tax_rate : ℚ := 0
  tx_type : Option String := some "mortgage_interest"
  id : Option String := none
  deriving Repr, DecidableEq

/-- The rate-selection loop inside `_periodic_interest`: skip entries whose
(truthy) start exceeds the key or whose end lies below it; the first
remaining entry with a rate wins, else the base annual rate. -/
def chosen_rate (key : ℤ) (base : ℚ) : List (ℤ × Option ℤ × Option ℚ) → ℚ
  | [] => base
  | (s, e, r) :: rest =>
    if start_excludes (some s) key then chosen_rate key base rest
    else if stop_excludes e key then chosen_rate key base rest
    else
      match r with
      | some rv => rv
      | none => chosen_rate key base rest

/-- Specification-level reading of the same selection: the first
`rate_schedule` entry that matches the key and carries a rate, with the
base annual rate as fallback. -/
def first_matching_rate (key : ℤ) (schedule : List (ℤ × Option ℤ × Option ℚ)) : Option ℚ :=
  (schedule.find? (fun ent =>
    !start_excludes (some ent.1) key && !stop_excludes ent.2.1 key &&
    ent.2.2.isSome)).bind (fun ent => ent.2.2)

/-- Effective annual rate in the claim's phrasing. -/
def MortTx.effective_rate (mt : MortTx) (key : ℤ) : ℚ :=
  (first_matching_rate key mt.rate_schedule).getD mt.annual_interest_rate

/-- The selection loop agrees with the first-match reading. -/
theorem chosen_rate_eq_first_matching (key : ℤ) (base : ℚ)
    (schedule : List (ℤ × Option ℤ × Option ℚ)) :
    chosen_rate key base schedule = (first_matching_rate key schedule).getD base := by
  induction schedule with
  | nil => rfl
  | cons ent rest ih =>
    obtain ⟨s, e, r⟩ := ent
    simp only [chosen_rate, first_matching_rate, List.find?_cons]
    cases h1 : start_excludes (some s) key with
    | true => simpa [first_matching_rate, h1] using ih
    | false =>
      cases h2 : stop_excludes e key with
      | true => simpa [first_matching_rate, h1, h2] using ih
      | false =>
        cases r with
        | some rv => simp [first_matching_rate, h1, h2]
        | none => simpa [first_matching_rate, h1, h2] using ih

/-- `_periodic_interest`: `|mortgage balance| * (rate * frequency/12)`,
with `balance` the mortgage account's balance at call time. -/
def MortTx.periodic_interest (mt : MortTx) (balance : ℚ) (cm cy : ℤ) : ℚ :=
  let key := cy * 100 + cm
  let rate := chosen_rate key mt.annual_interest_rate mt.rate_schedule
  |balance| * (rate * ((mt.frequency : ℚ) / 12))

/-- `MortgageInterestTransaction.is_applicable`: window membership and
frequency alignment (the amount computation happens at the use site). -/
def MortTx.is_applicable (mt : MortTx) (cm cy : ℤ) : Bool :=
  let starts := decide (cy > mt.year ∨ (cy = mt.year ∧ cm ≥ mt.month))
  let ends := decide (cy < mt.endYear ∨ (cy = mt.endYear ∧ cm ≤ mt.endMonth))
  if !(starts && ends) then false
  else decide (((cy - mt.year) * 12 + (cm - mt.month)) % (mt.frequency : ℤ) = 0)

/-! ## The monthly simulation loop
(`backend/domain.py`, `simulate_account_balances_and_total_wealth`)

Python `Account` objects are mutable and shared by reference between the
account list, the transaction map and the mortgage transactions; the
embedding keys them by their index in the account list and threads the
balances explicitly. -/

instance : Inhabited AccountSpec := ⟨⟨"", 0, 0, none, none, none, none, []⟩⟩

/-- `account.update_balance(v)` on the account at index `i`. -/
def addAt (l : List ℚ) (i : ℕ) (v : ℚ) : List ℚ :=
  l.set i (l.getD i 0 + v)

/-- A cash-flow detail dict `{name, amount, account, tx_type?, transaction_id?}`;
the optional keys are only added when the attribute is Python-truthy. -/
structure Detail where
  name : String
  amount : ℚ
  account : String
  tx_type : Option String := none
  transaction_id : Option String := none
  deriving Repr, DecidableEq

/-- `detail["tx_type"] = ...` only happens under `if getattr(...)`:
`None` and the empty string are dropped. -/
def pyStrOpt : Option String → Option String
  | some s => if s = "" then none else some s
  | none => none

/-- Simulation configuration: the arguments of
`simulate_account_balances_and_total_wealth`, plus the monthly-rate
conversion `toMonthly` standing for `(1+r)**(1/12) - 1`. -/
structure SimCfg where
  toMonthly : ℚ → ℚ
  accounts : List AccountSpec
  txs : List (List Tx)
  mortTxs : List MortTx := []
  taxAccount : Option ℕ := none
  startYear : ℤ
  startMonth : ℤ
  endYear : ℤ
  endMonth : ℤ

/-- Mutable state between months: per-account balances and the
`account_initialized` flags. -/
structure SimState where
  balances : List ℚ
  inited : List Bool
  deriving Repr, DecidableEq

/-- Output of the growth pass of one month. -/
structure GrowthPass where
  st : SimState
  active : List Bool
  monthly_growth : ℚ
  growth_details : List (String × ℚ)

/-- Growth handling for the account at index `i`: zero the balance if
inactive; otherwise restore `initial_balance` on first activity, compound,
and record the growth amount when non-zero. -/
def growth_step (toMonthly : ℚ → ℚ) (accounts : List AccountSpec) (y m : ℤ)
    (g : GrowthPass) (i : ℕ) : GrowthPass :=
  let a := accounts.getD i default
  if ¬ is_active a m y then
    { g with st := { g.st with balances := g.st.balances.set i 0 },
             active := g.active ++ [false] }
  else
    let bal0 := if g.st.inited.getD i false then g.st.balances.getD i 0 else a.initial_balance
    let bal1 := apply_growth toMonthly a y m bal0
    let growth_amount := bal1 - bal0
    { st := { balances := g.st.balances.set i bal1, inited := g.st.inited.set i true },
      active := g.active ++ [true],
      monthly_growth :=
        if growth_amount = 0 then g.monthly_growth else g.monthly_growth + growth_amount,
      growth_details :=
        if growth_amount = 0 then g.growth_details
        else g.growth_details ++ [(a.name, growth_amount)] }

/-- First pass of a month over all accounts in order. -/
def phase1 (cfg : SimCfg) (y m : ℤ) (st : SimState) : GrowthPass :=
  (List.range cfg.accounts.length).foldl (growth_step cfg.toMonthly cfg.accounts y m)
    ⟨st, [], 0, []⟩

/-- `pick_tax_account`: the configured account if it is active this month,
else the first active account, else none. -/
def pick_tax_account (taxAccount : Option ℕ) (active : List Bool) : Option ℕ :=
  match taxAccount with
  | some t => if active.getD t false then some t else active.findIdx? (fun b => b)
  | none => active.findIdx? (fun b => b)

/-- Accumulators of the transaction passes (standard then mortgage). -/
structure TxPass where
  balances : List ℚ
  monthly_income : ℚ
  monthly_expense : ℚ
  monthly_tax : ℚ
  income_details : List Detail
  expense_details : List Detail
  tax_details : List (String × ℚ × String)

/-- Name of the account at index `i`. -/
def acct_name (accounts : List AccountSpec) (i : ℕ) : String :=
  (accounts.getD i default).name

/-- Processing of one standard transaction of the account at index `i`
(domain.py lines 315-357): apply the adjusted amount to the balance, then
the optional `tax_effect` to the tax target, and—unless the transaction is
flagged `internal`—record it in the income or expense details and totals. -/
def apply_std_tx (toMonthly : ℚ → ℚ) (accounts : List AccountSpec) (effTax : Option ℕ)
    (i : ℕ) (m y : ℤ) (s : TxPass) (t : Tx) : TxPass :=
  if ¬ t.is_applicable m y then s
  else
    let applied_amount := t.adjusted_amount toMonthly m y
    let bal1 := addAt s.balances i applied_amount
    let hasTaxFx := t.tax_effect ≠ 0
    let target := effTax.getD i
    let bal2 := if hasTaxFx then addAt bal1 target t.tax_effect else bal1
    let tax1 := if hasTaxFx then s.monthly_tax + t.tax_effect else s.monthly_tax
    let taxD :=
      if hasTaxFx then s.tax_details ++ [(t.name, t.tax_effect, acct_name accounts target)]
      else s.tax_details
    if t.internal then
      { s with balances := bal2, monthly_tax := tax1, tax_details := taxD }
    else
      let detail : Detail :=
        { name := t.name, amount := applied_amount, account := acct_name accounts i,
          tx_type := pyStrOpt t.tx_type, transaction_id := pyStrOpt t.id }
      if applied_amount ≥ 0 then
        { s with balances := bal2, monthly_tax := tax1, tax_details := taxD,
                 monthly_income := s.monthly_income + applied_amount,
                 income_details := s.income_details ++ [detail] }
      else
        { s with balances := bal2, monthly_tax := tax1, tax_details := taxD,
                 monthly_expense := s.monthly_expense + applied_amount,
                 expense_details := s.expense_details ++ [detail] }

/-- Second pass: every active account's standard transactions, in account
order then insertion order. -/
def phase2 (cfg : SimCfg) (effTax : Option ℕ) (y m : ℤ) (active : List Bool)
    (balances : List ℚ) : TxPass :=
  (List.range cfg.accounts.length).foldl
    (fun s i =>
      if active.getD i false then
        (cfg.txs.getD i []).foldl (apply_std_tx cfg.toMonthly cfg.accounts effTax i m y) s
      else s)
    ⟨balances, 0, 0, 0, [], [], []⟩

/-- Processing of one mortgage-interest transaction (domain.py lines
359-392): the amount is computed from the mortgage balance as it stands
now, applied to the payer when both accounts are active, logged as an
expense, and—when `taxable`—a positive credit `|amount| * tax_rate` goes to
the tax target. -/
def apply_mort_tx (accounts : List AccountSpec) (effTax : Option ℕ) (m y : ℤ)
    (s : TxPass) (mt : MortTx) : TxPass :=
  if ¬ mt.is_applicable m y then s
  else
    let amount := -(mt.periodic_interest (s.balances.getD mt.mortgageIdx 0) m y)
    if ¬ (is_active (accounts.getD mt.mortgageIdx default) m y
          && is_active (accounts.getD mt.payIdx default) m y) then s
    else
      let detail : Detail :=
        { name := mt.name, amount := amount, account := acct_name accounts mt.payIdx,
          tx_type := some ((pyStrOpt mt.tx_type).getD "mortgage_interest"),
          transaction_id := pyStrOpt mt.id }
      let s1 :=
        { s with balances := addAt s.balances mt.payIdx amount,
                 monthly_expense := s.monthly_expense + amount,
                 expense_details := s.expense_details ++ [detail] }
      if mt.taxable then
        let tax_effect := |amount| * |mt.tax_rate|
        let target := effTax.getD mt.payIdx
        { s1 with balances := addAt s1.balances target tax_effect,
                  monthly_tax := s1.monthly_tax + tax_effect,
                  tax_details :=
                    s1.tax_details ++ [(mt.name ++ " Steuer", tax_effect, acct_name accounts target)] }
      else s1

/-- Everything recorded for one month: the balance-history entries of all
accounts, the total-wealth entry, and the cash-flow record. -/
structure MonthRow where
  year : ℤ
  month : ℤ
  balances : List ℚ
  total : ℚ
  income : ℚ
  expenses : ℚ
  growth : ℚ
  taxes : ℚ
  net : ℚ
  income_details : List Detail
  expense_details : List Detail
  growth_details : List (String × ℚ)
  tax_details : List (String × ℚ × String)

instance : Inhabited MonthRow := ⟨⟨0, 0, [], 0, 0, 0, 0, 0, 0, [], [], [], []⟩⟩

/-- One iteration of the `while` loop: growth pass, standard transactions,
mortgage interest, then the snapshot which sums the balances into the
total. -/
def step_month (cfg : SimCfg) (st : SimState) (ym : ℤ × ℤ) : SimState × MonthRow :=
  let y := ym.1
  let m := ym.2
  let g := phase1 cfg y m st
  let effTax := pick_tax_account cfg.taxAccount g.active
  let s2 := phase2 cfg effTax y m g.active g.st.balances
  let s3 := cfg.mortTxs.foldl (apply_mort_tx cfg.accounts effTax m y) s2
  let total := s3.balances.foldl (fun acc b => acc + b) 0
  ({ balances := s3.balances, inited := g.st.inited },
   { year := y, month := m, balances := s3.balances, total := total,
     income := s3.monthly_income, expenses := s3.monthly_expense,
     growth := g.monthly_growth, taxes := s3.monthly_tax,
     net := s3.monthly_income + s3.monthly_expense + s3.monthly_tax,
     income_details := s3.income_details, expense_details := s3.expense_details,
     growth_details := g.growth_details, tax_details := s3.tax_details })

/-- The state-threading recursion over the month list. -/
def sim_months (cfg : SimCfg) : SimState → List (ℤ × ℤ) → List MonthRow
  | _, [] => []
  | st, ym :: rest =>
    let out := step_month cfg st ym
    out.2 :: sim_months cfg out.1 rest

/-- `simulate_account_balances_and_total_wealth`: reset balances, then run
the monthly loop over the inclusive window. -/
def simulate (cfg : SimCfg) : List MonthRow :=
  sim_months cfg ⟨cfg.accounts.map (·.initial_balance), cfg.accounts.map (fun _ => false)⟩
    (monthSeq cfg.startYear cfg.startMonth cfg.endYear cfg.endMonth)

/-- `account_balance_histories[account]` for the account at index `i`. -/
def account_balance_history (cfg : SimCfg) (i : ℕ) : List ((ℤ × ℤ) × ℚ) :=
  (simulate cfg).map (fun r => ((r.year, r.month), r.balances.getD i 0))

/-- `total_wealth_history`. -/
def total_wealth_history (cfg : SimCfg) : List ((ℤ × ℤ) × ℚ) :=
  (simulate cfg).map (fun r => ((r.year, r.month), r.total))

/-! ## Structural lemmas about the simulation -/

/-- Fold preservation helper. -/
theorem list_foldl_inv {α β : Type} (P : β → Prop) (f : β → α → β)
    (hf : ∀ b a, P b → P (f b a)) :
    ∀ (l : List α) (b : β), P b → P (l.foldl f b) := by
  intro l
  induction l with
  | nil => intro b hb; exact hb
  | cons a l ih => intro b hb; exact ih _ (hf b a hb)

theorem addAt_length (l : List ℚ) (i : ℕ) (v : ℚ) : (addAt l i v).length = l.length := by
  simp [addAt]

theorem apply_std_tx_length (toMonthly : ℚ → ℚ) (accounts : List AccountSpec)
    (effTax : Option ℕ) (i : ℕ) (m y : ℤ) (s : TxPass) (t : Tx) :
    (apply_std_tx toMonthly accounts effTax i m y s t).balances.length = s.balances.length := by
  unfold apply_std_tx
  dsimp only
  split_ifs <;> simp [addAt]

theorem apply_mort_tx_length (accounts : List AccountSpec) (effTax : Option ℕ) (m y : ℤ)
    (s : TxPass) (mt : MortTx) :
    (apply_mort_tx accounts effTax m y s mt).balances.length = s.balances.length := by
  unfold apply_mort_tx
  dsimp only
  split_ifs <;> simp [addAt]

theorem growth_step_length (toMonthly : ℚ → ℚ) (accounts : List AccountSpec) (y m : ℤ)
    (g : GrowthPass) (i : ℕ) :
    (growth_step toMonthly accounts y m g i).st.balances.length = g.st.balances.length := by
  unfold growth_step
  dsimp only
  split_ifs <;> simp

theorem phase1_length (cfg : SimCfg) (y m : ℤ) (st : SimState) :
    (phase1 cfg y m st).st.balances.length = st.balances.length := by
  unfold phase1
  exact list_foldl_inv (fun (g : GrowthPass) => g.st.balances.length = st.balances.length)
    (growth_step cfg.toMonthly cfg.accounts y m)
    (fun g i hg => (growth_step_length cfg.toMonthly cfg.accounts y m g i).trans hg)
    (List.range cfg.accounts.length) ⟨st, [], 0, []⟩ rfl

theorem phase2_length (cfg : SimCfg) (effTax : Option ℕ) (y m : ℤ) (active : List Bool)
    (balances : List ℚ) :
    (phase2 cfg effTax y m active balances).balances.length = balances.length := by
  unfold phase2
  refine list_foldl_inv (fun (s : TxPass) => s.balances.length = balances.length)
    (fun s i =>
      if active.getD i false then
        (cfg.txs.getD i []).foldl (apply_std_tx cfg.toMonthly cfg.accounts effTax i m y) s
      else s)
    ?_ _ _ rfl
  intro s i hs
  dsimp only
  split
  · exact list_foldl_inv (fun (s2 : TxPass) => s2.balances.length = balances.length)
      (apply_std_tx cfg.toMonthly cfg.accounts effTax i m y)
      (fun s2 t hs2 => (apply_std_tx_length cfg.toMonthly cfg.accounts effTax i m y s2 t).trans hs2) _ s hs
  · exact hs

theorem sim_months_nil (cfg : SimCfg) (st : SimState) : sim_months cfg st [] = [] := rfl

theorem sim_months_cons (cfg : SimCfg) (st : SimState) (ym : ℤ × ℤ) (rest : List (ℤ × ℤ)) :
    sim_months cfg st (ym :: rest)
      = (step_month cfg st ym).2 :: sim_months cfg (step_month cfg st ym).1 rest := rfl

theorem step_month_row_length (cfg : SimCfg) (st : SimState) (ym : ℤ × ℤ) :
    ((step_month cfg st ym).2).balances.length = st.balances.length
    ∧ ((step_month cfg st ym).1).balances.length = st.balances.length := by
  have h3 : ∀ (eff : Option ℕ) (s : TxPass),
      (cfg.mortTxs.foldl (apply_mort_tx cfg.accounts eff ym.2 ym.1) s).balances.length
        = s.balances.length := fun eff s =>
    list_foldl_inv (fun (s2 : TxPass) => s2.balances.length = s.balances.length)
      (apply_mort_tx cfg.accounts eff ym.2 ym.1)
      (fun s2 mt hs2 => (apply_mort_tx_length cfg.accounts eff ym.2 ym.1 s2 mt).trans hs2) _ s rfl
  constructor
  · simp only [step_month]
    rw [h3, phase2_length, phase1_length]
  · simp only [step_month]
    rw [h3, phase2_length, phase1_length]

/-- Every row produced by the simulation sums its own balance snapshot
into `total`, and snapshots exactly one balance per account. -/
theorem sim_months_rows (cfg : SimCfg) :
    ∀ (keys : List (ℤ × ℤ)) (st : SimState), st.balances.length = cfg.accounts.length →
      ∀ row ∈ sim_months cfg st keys,
        row.total = row.balances.foldl (fun acc b => acc + b) 0
        ∧ row.balances.length = cfg.accounts.length := by
  intro keys
  induction keys with
  | nil => intro st hst row hrow; rw [sim_months_nil] at hrow; exact absurd hrow (List.not_mem_nil row)
  | cons ym rest ih =>
    intro st hst row hrow
    rw [sim_months_cons] at hrow
    rcases List.mem_cons.mp hrow with h | h
    · subst h
      refine ⟨rfl, ?_⟩
      rw [(step_month_row_length cfg st ym).1, hst]
    · exact ih _ (by rw [(step_month_row_length cfg st ym).2, hst]) row h

theorem simulate_rows (cfg : SimCfg) :
    ∀ row ∈ simulate cfg,
      row.total = row.balances.foldl (fun acc b => acc + b) 0
      ∧ row.balances.length = cfg.accounts.length := by
  intro row h
  exact sim_months_rows cfg _ _ (by simp) row h

theorem foldl_add_eq_sum (l : List ℚ) :
    ∀ c : ℚ, l.foldl (fun acc b => acc + b) c = c + ∑ i in Finset.range l.length, l.getD i 0 := by
  induction l with
  | nil => simp
  | cons x xs ih =>
    intro c
    simp only [List.foldl_cons, List.length_cons, ih]
    rw [Finset.sum_range_succ']
    simp only [List.getD_cons_succ, List.getD_cons_zero]
    ring

theorem getD_map_lt {α β : Type} (f : α → β) (d : β) (d2 : α) :
    ∀ (l : List α) (j : ℕ), j < l.length → (l.map f).getD j d = f (l.getD j d2) := by
  intro l
  induction l with
  | nil => intro j h; simp at h
  | cons x xs ih =>
    intro j h
    cases j with
    | zero => simp
    | succ j =>
      simp only [List.map_cons, List.getD_cons_succ]
      exact ih j (by simpa using h)

theorem getD_mem {α : Type} (d : α) : ∀ (l : List α) (j : ℕ), j < l.length → l.getD j d ∈ l := by
  intro l
  induction l with
  | nil => intro j h; simp at h
  | cons x xs ih =>
    intro j h
    cases j with
    | zero => simp
    | succ j => exact List.mem_cons_of_mem x (ih j (by simpa using h))

/-- **C1.**  For every simulated month, the value pushed into the
total-wealth history equals the sum, over all accounts, of the balance
recorded in that account's balance history for the same month (inactive
accounts having had their balance zeroed). -/
theorem total_wealth_eq_sum_balance_histories (cfg : SimCfg) (j : ℕ)
    (hj : j < (total_wealth_history cfg).length) :
    ((total_wealth_history cfg).getD j default).2
      = ∑ i in Finset.range cfg.accounts.length,
          ((account_balance_history cfg i).getD j default).2 := by
  have hj2 : j < (simulate cfg).length := by
    simpa [total_wealth_history] using hj
  have e1 : (total_wealth_history cfg).getD j default
      = (fun r => ((r.year, r.month), r.total)) ((simulate cfg).getD j default) := by
    simp only [total_wealth_history]
    exact getD_map_lt _ _ _ _ _ hj2
  have e2 : ∀ i : ℕ, (account_balance_history cfg i).getD j default
      = (fun r => ((r.year, r.month), r.balances.getD i 0)) ((simulate cfg).getD j default) := by
    intro i
    simp only [account_balance_history]
    exact getD_map_lt _ _ _ _ _ hj2
  rw [e1]
  simp only [e2]
  obtain ⟨htot, hlen⟩ := simulate_rows cfg _ (getD_mem _ _ _ hj2)
  show ((simulate cfg).getD j default).total = _
  rw [htot, foldl_add_eq_sum, hlen, zero_add]

/-- Concrete two-account configuration exercising C1. -/
def cfgC1 : SimCfg :=
  { toMonthly := fun r => r,
    accounts := [{ name := "A", base_annual_growth_rate := 0, initial_balance := 5 },
                 { name := "B", base_annual_growth_rate := 0, initial_balance := 7 }],
    txs := [[], []],
    startYear := 2024, startMonth := 1, endYear := 2024, endMonth := 1 }

theorem total_wealth_eq_sum_balance_histories_witness :
    0 < (total_wealth_history cfgC1).length
    ∧ ((total_wealth_history cfgC1).getD 0 default).2
        = ∑ i in Finset.range cfgC1.accounts.length,
            ((account_balance_history cfgC1 i).getD 0 default).2 :=
  ⟨by decide, total_wealth_eq_sum_balance_histories cfgC1 0 (by decide)⟩

/-- **C8.**  An applicable transaction flagged `internal` (a double-entry
leg) has its amount applied to its account's balance but adds no entry to
`income_details` or `expense_details` and leaves the monthly income and
expense totals untouched. -/
theorem internal_tx_excluded (toMonthly : ℚ → ℚ) (accounts : List AccountSpec)
    (effTax : Option ℕ) (i : ℕ) (m y : ℤ) (s : TxPass) (t : Tx)
    (happ : t.is_applicable m y = true) (hint : t.internal = true) :
    (apply_std_tx toMonthly accounts effTax i m y s t).monthly_income = s.monthly_income
    ∧ (apply_std_tx toMonthly accounts effTax i m y s t).monthly_expense = s.monthly_expense
    ∧ (apply_std_tx toMonthly accounts effTax i m y s t).income_details = s.income_details
    ∧ (apply_std_tx toMonthly accounts effTax i m y s t).expense_details = s.expense_details
    ∧ (t.tax_effect = 0 →
        (apply_std_tx toMonthly accounts effTax i m y s t).balances
          = addAt s.balances i (t.adjusted_amount toMonthly m y)) := by
  unfold apply_std_tx
  dsimp only
  rw [if_neg (not_not_intro happ), if_pos hint]
  refine ⟨rfl, rfl, rfl, rfl, fun h0 => ?_⟩
  simp [h0]

/-- Standard one-account setting exercising C8. -/
def accC8 : AccountSpec := { name := "Giro", base_annual_growth_rate := 0, initial_balance := 10 }

/-- A double-entry leg (`internal = true`). -/
def txC8 : Tx :=
  { name := "Transfer", amount := 500, month := 1, year := 2024, internal := true,
    kind := .one_time }

def sC8 : TxPass := ⟨[10], 0, 0, 0, [], [], []⟩

theorem internal_tx_excluded_witness :
    (apply_std_tx (fun r => r) [accC8] none 0 1 2024 sC8 txC8).monthly_income = sC8.monthly_income
    ∧ (apply_std_tx (fun r => r) [accC8] none 0 1 2024 sC8 txC8).monthly_expense = sC8.monthly_expense
    ∧ (apply_std_tx (fun r => r) [accC8] none 0 1 2024 sC8 txC8).income_details = sC8.income_details
    ∧ (apply_std_tx (fun r => r) [accC8] none 0 1 2024 sC8 txC8).expense_details = sC8.expense_details
    ∧ (apply_std_tx (fun r => r) [accC8] none 0 1 2024 sC8 txC8).balances
        = addAt sC8.balances 0 (txC8.adjusted_amount (fun r => r) 1 2024) :=
  have h := internal_tx_excluded (fun r => r) [accC8] none 0 1 2024 sC8 txC8 (by decide) rfl
  ⟨h.1, h.2.1, h.2.2.1, h.2.2.2.1, h.2.2.2.2 rfl⟩

/-- The interest amount exactly as the claim words it:
`-|mortgage balance| * (effective rate * frequency/12)` with the effective
rate given by the first matching `rate_schedule` entry, else the base
annual rate. -/
def claimed_mort_amount (mt : MortTx) (bal : ℚ) (m y : ℤ) : ℚ :=
  -(|bal| * (mt.effective_rate (y * 100 + m) * ((mt.frequency : ℚ) / 12)))

/-- **C2.**  In a month where a mortgage-interest transaction is applicable
and both its accounts are active, the simulation charges the payer exactly
`-|mortgage balance at that step| * (effective_rate * frequency/12)`: the
expense total and detail record carry that amount, and (when no tax credit
applies) the payer balance is updated by it. -/
theorem mortgage_interest_applied_amount (accounts : List AccountSpec) (effTax : Option ℕ)
    (m y : ℤ) (s : TxPass) (mt : MortTx)
    (happ : mt.is_applicable m y = true)
    (hma : is_active (accounts.getD mt.mortgageIdx default) m y = true)
    (hpa : is_active (accounts.getD mt.payIdx default) m y = true) :
    (apply_mort_tx accounts effTax m y s mt).monthly_expense
      = s.monthly_expense + claimed_mort_amount mt (s.balances.getD mt.mortgageIdx 0) m y
    ∧ (apply_mort_tx accounts effTax m y s mt).expense_details
      = s.expense_details
        ++ [{ name := mt.name,
              amount := claimed_mort_amount mt (s.balances.getD mt.mortgageIdx 0) m y,
              account := acct_name accounts mt.payIdx,
              tx_type := some ((pyStrOpt mt.tx_type).getD "mortgage_interest"),
              transaction_id := pyStrOpt mt.id }]
    ∧ (mt.taxable = false →
        (apply_mort_tx accounts effTax m y s mt).balances
          = addAt s.balances mt.payIdx (claimed_mort_amount mt (s.balances.getD mt.mortgageIdx 0) m y)) := by
  have hamt : -(mt.periodic_interest (s.balances.getD mt.mortgageIdx 0) m y)
      = claimed_mort_amount mt (s.balances.getD mt.mortgageIdx 0) m y := by
    unfold MortTx.periodic_interest claimed_mort_amount MortTx.effective_rate
    dsimp only
    rw [chosen_rate_eq_first_matching]
  unfold apply_mort_tx
  dsimp only
  rw [if_neg (not_not_intro happ),
    if_neg (not_not_intro (by rw [Bool.and_eq_true]; exact ⟨hma, hpa⟩))]
  rw [← hamt]
  refine ⟨?_, ?_, fun htax => ?_⟩
  · split <;> rfl
  · split <;> rfl
  · rw [if_neg (by simp [htax])]

/-- Payer and mortgage accounts of scenario C, C2 witness. -/
def accPayC2 : AccountSpec := { name := "Bank", base_annual_growth_rate := 0, initial_balance := 100000 }

def accMortC2 : AccountSpec := { name := "Mortgage", base_annual_growth_rate := 0, initial_balance := -500000 }

def mtC2 : MortTx :=
  { name := "Hypothekenzins", mortgageIdx := 1, payIdx := 0, annual_interest_rate := 3/100,
    frequency := 1, month := 1, year := 2024, endMonth := 12, endYear := 2024 }

def sC2 : TxPass := ⟨[100000, -500000], 0, 0, 0, [], [], []⟩

theorem mortgage_interest_applied_amount_witness :
    (apply_mort_tx [accPayC2, accMortC2] none 1 2024 sC2 mtC2).monthly_expense
      = sC2.monthly_expense + claimed_mort_amount mtC2 (sC2.balances.getD mtC2.mortgageIdx 0) 1 2024
    ∧ (apply_mort_tx [accPayC2, accMortC2] none 1 2024 sC2 mtC2).balances
      = addAt sC2.balances mtC2.payIdx
          (claimed_mort_amount mtC2 (sC2.balances.getD mtC2.mortgageIdx 0) 1 2024) :=
  have h := mortgage_interest_applied_amount [accPayC2, accMortC2] none 1 2024 sC2 mtC2
    (by decide) (by decide) (by decide)
  ⟨h.1, h.2.2 rfl⟩

/-! ## Indexation of regular transactions, exact real semantics

The `RegularTransaction` constructor computes
`monthly_growth_rate = (1 + annual_growth_rate) ** (1/12) - 1` and
`get_amount_for_period` raises `1 + monthly_growth_rate` to
`periods_elapsed = total_months // frequency`.  The root forces real
exponentials, hence this section models the same source lines over `ℝ`
(the simulation embedding keeps the conversion abstract as `toMonthly`). -/

/-- `(1 + annual_rate) ** (1 / 12) - 1` (domain.py line 150). -/
noncomputable def monthly_rate (annual : ℝ) : ℝ := (1 + annual) ^ ((1 : ℝ) / 12) - 1

/-- `RegularTransaction.get_amount_for_period` over `ℝ`, including the
constructor's `max(1, frequency or 1)` clamp; Python `//` is `Int.fdiv`. -/
noncomputable def get_amount_for_period_real (original annual : ℝ) (frequency : ℕ)
    (startMonth startYear cm cy : ℤ) : ℝ :=
  let freq := max 1 frequency
  let total_months := (cy - startYear) * 12 + (cm - startMonth)
  let periods_elapsed := Int.fdiv total_months (freq : ℤ)
  original * (1 + monthly_rate annual) ^ periods_elapsed

/-- The claim's formula for the n-th application of a regular transaction
with frequency `k`: `base * (1 + annual) ^ (n·k/12)`.  Second definition,
following the specification's words (§8.6). -/
noncomputable def claimed_indexed_amount (base annual : ℝ) (k n : ℕ) : ℝ :=
  base * (1 + annual) ^ (((n * k : ℕ) : ℝ) / 12)

/-- **C6 counterexample.**  With `base = 1`, `annual = 4095`, frequency
`k = 12`, the application `n = 1` (12 months after the start) yields
`(1+4095)^(1/12) = 2`, not the claimed `(1+4095)^(12/12) = 4096`. -/
theorem indexation_formula_counterexample :
    get_amount_for_period_real 1 4095 12 1 2024 1 2025 = 2
    ∧ claimed_indexed_amount 1 4095 12 1 = 4096
    ∧ (2 : ℝ) ≠ 4096 := by
  have h4096 : (4096 : ℝ) = (2 : ℝ) ^ ((12 : ℕ) : ℝ) := by
    rw [Real.rpow_natCast]; norm_num
  have h2 : ((4096 : ℝ)) ^ ((1 : ℝ) / 12) = 2 := by
    rw [h4096, ← Real.rpow_mul (by norm_num : (0 : ℝ) ≤ 2)]
    norm_num
  refine ⟨?_, ?_, by norm_num⟩
  · unfold get_amount_for_period_real monthly_rate
    dsimp only
    have hf : Int.fdiv ((2025 - 2024) * 12 + (1 - 1)) ((max 1 12 : ℕ) : ℤ) = 1 := by decide
    rw [hf]
    have he : (1 : ℝ) + ((1 + 4095) ^ ((1 : ℝ) / 12) - 1) = (4096 : ℝ) ^ ((1 : ℝ) / 12) := by
      norm_num
    rw [he, zpow_one, h2, one_mul]
  · unfold claimed_indexed_amount
    have he : (((1 * 12 : ℕ) : ℝ)) / 12 = 1 := by norm_num
    have ha : (1 : ℝ) + 4095 = 4096 := by norm_num
    rw [he, ha, Real.rpow_one, one_mul]

/-- **C6 amended.**  The n-th application (at `n·k` months after the
start) of a regular transaction with frequency `k` and indexation rate
`annual` has effective amount `base * (1+annual)^(n/12)` — one monthly
indexation factor per elapsed *period*, not per elapsed month; this equals
the claimed `base * (1+annual)^(n·k/12)` only when `k = 1`.  Stated before
any inflation-schedule factor. -/
theorem regular_indexation_amount (base annual : ℝ) (k n : ℕ) (sm sy cm cy : ℤ)
    (hk : 1 ≤ k) (ha : 0 ≤ 1 + annual)
    (hmon : (cy - sy) * 12 + (cm - sm) = (n * k : ℕ)) :
    get_amount_for_period_real base annual k sm sy cm cy
      = base * (1 + annual) ^ ((n : ℝ) / 12) := by
  unfold get_amount_for_period_real monthly_rate
  dsimp only
  rw [hmon, Nat.max_eq_right hk]
  have hknz : ((k : ℤ)) ≠ 0 := by
    have : 0 < k := hk
    omega
  have hdiv : Int.fdiv ((n * k : ℕ) : ℤ) (k : ℤ) = (n : ℤ) := by
    push_cast
    rw [Int.mul_fdiv_cancel _ hknz]
  rw [hdiv]
  have he : (1 : ℝ) + ((1 + annual) ^ ((1 : ℝ) / 12) - 1) = (1 + annual) ^ ((1 : ℝ) / 12) := by
    ring
  rw [he, zpow_natCast, ← Real.rpow_natCast ((1 + annual) ^ ((1 : ℝ) / 12)) n,
    ← Real.rpow_mul ha]
  congr 1
  ring_nf

theorem regular_indexation_amount_witness :
    get_amount_for_period_real 1 4095 12 1 2024 1 2025
      = 1 * (1 + 4095) ^ (((1 : ℕ) : ℝ) / 12) :=
  regular_indexation_amount 1 4095 12 1 1 2024 1 2025 (by norm_num) (by norm_num) (by norm_num)

/-! ## Tax engine (`backend/services.py`)

`_calc_progressive`, `_calc_federal` and the module-level default tables.
The federal table rows are dicts `{income, base, per100}`. -/

/-- A federal tariff row. -/
structure FedRow where
  income : ℚ
  base : ℚ
  per100 : ℚ
  deriving Repr, DecidableEq

instance : Inhabited FedRow := ⟨⟨0, 0, 0⟩⟩

/-- A progressive bracket `{cap, rate}` (`cap = None` marks the last,
unbounded slice). -/
structure TaxBracket where
  cap : Option ℚ
  rate : ℚ
  deriving Repr, DecidableEq

/-- The slice loop of `_calc_progressive`. -/
def calc_progressive_go : ℚ → ℚ → List TaxBracket → ℚ
  | _, tax, [] => tax
  | remaining, tax, e :: rest =>
    if remaining ≤ 0 then tax
    else
      let slice_amt := match e.cap with | none => remaining | some cap => min remaining cap
      calc_progressive_go (remaining - slice_amt) (tax + slice_amt * e.rate) rest

/-- `_calc_progressive`: consume the amount left-to-right through the
bracket caps. -/
def calc_progressive (amount : ℚ) (brackets : List TaxBracket) : ℚ :=
  calc_progressive_go (max 0 amount) 0 brackets

/-- `_safe_per100`: clamp negatives to 0 and anything above 20 to 11.5
(defence against corrupted imported tables). -/
def safe_per100 (val : ℚ) : ℚ :=
  let rate := max 0 val
  if rate > 20 then 23/2 else rate

/-- Stable insertion used to model Python's stable `sorted(..., key=income)`:
an element is placed before the first strictly position where its key fits,
after earlier-inserted equal keys of later elements never jump ahead. -/
def insert_row (r : FedRow) : List FedRow → List FedRow
  | [] => [r]
  | x :: xs => if r.income ≤ x.income then r :: x :: xs else x :: insert_row r xs

/-- `sorted(table, key=lambda x: x.get("income", 0))` (stable). -/
def sort_rows (l : List FedRow) : List FedRow := l.foldr insert_row []

/-- The bracket-search loop of `_calc_federal`: first `i` with
`rows[i].income <= taxable < rows[i+1].income`. -/
def find_bracket (x : ℚ) : List FedRow → Option FedRow
  | r1 :: r2 :: rest =>
    if r1.income ≤ x ∧ x < r2.income then some r1 else find_bracket x (r2 :: rest)
  | _ => none

/-- `_calc_federal` on the already-sorted row list. -/
def calc_federal_rows (taxable : ℚ) : List FedRow → ℚ
  | [] => 0
  | r0 :: rest =>
    if taxable ≤ r0.income then
      r0.base + ((taxable - r0.income) / 100) * safe_per100 r0.per100
    else
      match find_bracket taxable (r0 :: rest) with
      | some r => r.base + ((taxable - r.income) / 100) * safe_per100 r.per100
      | none =>
        let last := (r0 :: rest).getLastD r0
        last.base + (taxable - last.income) * (115/1000)

/-- `_calc_federal`. -/
def calc_federal (income : ℚ) (table : List FedRow) : ℚ :=
  calc_federal_rows (max 0 income) (sort_rows table)
/-- DEFAULT_FEDERAL_TABLE rows 1-40 (split to keep elaboration fast). -/
def fed_rows_1 : List FedRow := [
  ⟨18500, 2541/100, 77/100⟩,
  ⟨19000, 1463/50, 77/100⟩,
  ⟨20000, 924/25, 77/100⟩,
  ⟨21000, 2233/50, 77/100⟩,
  ⟨22000, 1309/25, 77/100⟩,
  ⟨23000, 3003/50, 77/100⟩,
  ⟨24000, 1694/25, 77/100⟩,
  ⟨25000, 3773/50, 77/100⟩,
  ⟨26000, 2079/25, 77/100⟩,
  ⟨27000, 4543/50, 77/100⟩,
  ⟨28000, 2464/25, 77/100⟩,
  ⟨29000, 5313/50, 77/100⟩,
  ⟨30000, 2849/25, 7⟩,
  ⟨33000, 6853/50, 33⟩,
  ⟨33200, 693/5, 35⟩,
  ⟨33300, 3487/25, 22/25⟩,
  ⟨34000, 3641/25, 43⟩,
  ⟨35000, 3861/25, 53⟩,
  ⟨36000, 4081/25, 63⟩,
  ⟨37000, 4301/25, 73⟩,
  ⟨38000, 4521/25, 83⟩,
  ⟨39000, 4741/25, 93⟩,
  ⟨40000, 4961/25, 103⟩,
  ⟨41000, 5181/25, 113⟩,
  ⟨42000, 5401/25, 123⟩,
  ⟨43500, 1146/5, 138⟩,
  ⟨43600, 5796/25, 66/25⟩,
  ⟨44000, 1212/5, 143⟩,
  ⟨45000, 1344/5, 153⟩,
  ⟨46000, 1476/5, 163⟩,
  ⟨47000, 1608/5, 173⟩,
  ⟨48000, 348, 183⟩,
  ⟨49000, 1872/5, 193⟩,
  ⟨50000, 2004/5, 203⟩,
  ⟨51000, 2136/5, 213⟩,
  ⟨53400, 12264/25, 237⟩,
  ⟨53500, 2466/5, 239⟩,
  ⟨54000, 2532/5, 249⟩,
  ⟨55000, 2664/5, 269⟩,
  ⟨56000, 2796/5, 289⟩]

/-- DEFAULT_FEDERAL_TABLE rows 41-80. -/
def fed_rows_2 : List FedRow := [
  ⟨57000, 2928/5, 309⟩,
  ⟨58000, 612, 329⟩,
  ⟨58100, 61497/100, 297/100⟩,
  ⟨59000, 6417/10, 349⟩,
  ⟨60000, 3357/5, 369⟩,
  ⟨61300, 71001/100, 395⟩,
  ⟨61400, 35649/50, 398⟩,
  ⟨65000, 8199/10, 506⟩,
  ⟨70000, 4842/5, 656⟩,
  ⟨75000, 11169/10, 806⟩,
  ⟨76100, 22991/20, 839⟩,
  ⟨76200, 115549/100, 297/50⟩,
  ⟨77500, 123271/100, 881⟩,
  ⟨79100, 5311/4, 929⟩,
  ⟨79200, 133369/100, 933⟩,
  ⟨82000, 1500, 1045⟩,
  ⟨82100, 7533/5, 33/5⟩,
  ⟨85000, 1698, 1165⟩,
  ⟨90000, 2028, 1365⟩,
  ⟨94900, 11757/5, 1561⟩,
  ⟨95000, 2358, 1566⟩,
  ⟨100000, 2688, 1816⟩,
  ⟨105000, 3018, 2066⟩,
  ⟨108600, 16278/5, 2246⟩,
  ⟨108700, 16311/5, 2252⟩,
  ⟨108800, 16344/5, 2258⟩,
  ⟨108900, 16388/5, 44/5⟩,
  ⟨110000, 16872/5, 2330⟩,
  ⟨115000, 19072/5, 2630⟩,
  ⟨120500, 21492/5, 2960⟩,
  ⟨120600, 21536/5, 2967⟩,
  ⟨125000, 23472/5, 3275⟩,
  ⟨130000, 25672/5, 3625⟩,
  ⟨130500, 25892/5, 3660⟩,
  ⟨130600, 25936/5, 3668⟩,
  ⟨135000, 27872/5, 4020⟩,
  ⟨138300, 29324/5, 4284⟩,
  ⟨138400, 29368/5, 4293⟩,
  ⟨141500, 30732/5, 4572⟩,
  ⟨141600, 30787/5, 11⟩]

/-- DEFAULT_FEDERAL_TABLE rows 81-110. -/
def fed_rows_3 : List FedRow := [
  ⟨144200, 32217/5, 4815⟩,
  ⟨144300, 32272/5, 4825⟩,
  ⟨148200, 34417/5, 5215⟩,
  ⟨148300, 34472/5, 5226⟩,
  ⟨150300, 35572/5, 5446⟩,
  ⟨150400, 35627/5, 5458⟩,
  ⟨151000, 35957/5, 5530⟩,
  ⟨152300, 36672/5, 5686⟩,
  ⟨152400, 36727/5, 5699⟩,
  ⟨155000, 38157/5, 6037⟩,
  ⟨160000, 40907/5, 6687⟩,
  ⟨170000, 46407/5, 7987⟩,
  ⟨184900, 54602/5, 9924⟩,
  ⟨185000, 54668/5, 66/5⟩,
  ⟨186000, 55328/5, 10067⟩,
  ⟨190000, 57968/5, 10587⟩,
  ⟨200000, 64568/5, 11887⟩,
  ⟨250000, 97568/5, 18387⟩,
  ⟨300000, 130568/5, 24887⟩,
  ⟨350000, 163568/5, 31387⟩,
  ⟨400000, 196568/5, 37887⟩,
  ⟨500000, 262568/5, 50887⟩,
  ⟨650000, 361568/5, 70387⟩,
  ⟨700000, 394568/5, 76887⟩,
  ⟨793300, 456146/5, 89016⟩,
  ⟨793400, 91241, 23/2⟩,
  ⟨800000, 92000, 89887⟩,
  ⟨940800, 108192, 108191⟩,
  ⟨940900, 216407/2, 216407/2⟩,
  ⟨950000, 109250, 216407/2⟩]

/-- The module-level `DEFAULT_FEDERAL_TABLE` of services.py. -/
def DEFAULT_FEDERAL_TABLE : List FedRow := fed_rows_1 ++ fed_rows_2 ++ fed_rows_3

def DEFAULT_INCOME_BRACKETS : List TaxBracket := [
  ⟨some (6900), 0⟩,
  ⟨some (4900), 1/50⟩,
  ⟨some (4800), 3/100⟩,
  ⟨some (7900), 1/25⟩,
  ⟨some (9600), 1/20⟩,
  ⟨some (11000), 3/50⟩,
  ⟨some (12900), 7/100⟩,
  ⟨some (17400), 2/25⟩,
  ⟨some (33600), 9/100⟩,
  ⟨some (33200), 1/10⟩,
  ⟨some (52700), 11/100⟩,
  ⟨some (68400), 3/25⟩,
  ⟨none, 13/100⟩]

def DEFAULT_WEALTH_BRACKETS : List TaxBracket := [
  ⟨some (80000), 0⟩,
  ⟨some (238000), 1/2000⟩,
  ⟨some (399000), 1/1000⟩,
  ⟨some (636000), 3/2000⟩,
  ⟨some (956000), 1/500⟩,
  ⟨some (953000), 1/400⟩,
  ⟨none, 3/1000⟩]

/-! ### Sorting and bracket-search lemmas -/

theorem sort_rows_cons (r : FedRow) (l : List FedRow) :
    sort_rows (r :: l) = insert_row r (sort_rows l) := rfl

theorem insert_row_of_forall_le (r : FedRow) (l : List FedRow)
    (h : ∀ x ∈ l, r.income ≤ x.income) : insert_row r l = r :: l := by
  cases l with
  | nil => rfl
  | cons x xs => simp [insert_row, h x (by simp)]

/-- Python's stable sort leaves an already-sorted table unchanged. -/
theorem sort_rows_of_sorted (l : List FedRow)
    (h : l.Pairwise (fun a b => a.income ≤ b.income)) : sort_rows l = l := by
  induction l with
  | nil => rfl
  | cons a l ih =>
    rw [sort_rows_cons, ih (List.pairwise_cons.mp h).2,
      insert_row_of_forall_le a l (List.pairwise_cons.mp h).1]

theorem getD_default_irrel (l : List FedRow) (i : ℕ) (h : i < l.length) (d1 d2 : FedRow) :
    l.getD i d1 = l.getD i d2 := by
  rw [List.getD_eq_getElem l d1 h, List.getD_eq_getElem l d2 h]

theorem getLastD_eq_getD :
    ∀ (l : List FedRow) (d : FedRow), l ≠ [] → l.getLastD d = l.getD (l.length - 1) d := by
  intro l
  induction l with
  | nil => intro d h; exact absurd rfl h
  | cons a l ih =>
    intro d _
    cases l with
    | nil => rfl
    | cons b m =>
      rw [List.getLastD_cons, ih a (by simp),
        getD_default_irrel (b :: m) ((b :: m).length - 1) (by simp) a d]
      have hlen : (a :: b :: m).length - 1 = ((b :: m).length - 1) + 1 := by
        simp
      rw [hlen, List.getD_cons_succ]

theorem pairwise_getD_lt (l : List FedRow) (h : l.Pairwise (fun a b => a.income < b.income))
    (a b : ℕ) (hb : b < l.length) (hab : a < b) :
    (l.getD a default).income < (l.getD b default).income := by
  have ha : a < l.length := lt_trans hab hb
  rw [List.getD_eq_getElem l default ha, List.getD_eq_getElem l default hb]
  exact List.pairwise_iff_getElem.mp h a b ha hb hab

theorem find_bracket_at (x : ℚ) :
    ∀ (l : List FedRow), l.Pairwise (fun a b => a.income < b.income) →
      ∀ i, i + 1 < l.length →
        (l.getD i default).income ≤ x → x < (l.getD (i + 1) default).income →
        find_bracket x l = some (l.getD i default) := by
  intro l
  induction l with
  | nil => intro _ i hi; simp at hi
  | cons r1 rest ih =>
    intro hp i hi hle hlt
    cases rest with
    | nil => simp at hi
    | cons r2 rest2 =>
      cases i with
      | zero =>
        rw [find_bracket, if_pos ⟨by simpa using hle, by simpa using hlt⟩]
        simp
      | succ i =>
        have hilen : i < (r2 :: rest2).length := by
          simp only [List.length_cons] at hi ⊢
          omega
        have h2 : r2.income ≤ x := by
          rcases Nat.eq_zero_or_pos i with hz | hpos
          · subst hz; simpa using hle
          · refine le_trans (le_of_lt ?_) (by simpa using hle)
            have := pairwise_getD_lt (r2 :: rest2) (List.pairwise_cons.mp hp).2 0 i hilen hpos
            simpa using this
        rw [find_bracket, if_neg (fun hc => absurd hc.2 (not_lt.mpr h2))]
        have := ih (List.pairwise_cons.mp hp).2 i (by simpa using hi)
          (by simpa using hle) (by simpa using hlt)
        rw [this]
        simp

theorem find_bracket_none (x : ℚ) :
    ∀ (l : List FedRow), (∀ r ∈ l, r.income ≤ x) → find_bracket x l = none := by
  intro l
  induction l with
  | nil => intro _; rfl
  | cons r1 rest ih =>
    intro h
    cases rest with
    | nil => rfl
    | cons r2 rest2 =>
      rw [find_bracket, if_neg (fun hc => absurd hc.2 (not_lt.mpr (h r2 (by simp))))]
      exact ih (fun r hr => h r (List.mem_cons_of_mem _ hr))

theorem calc_federal_rows_head (x : ℚ) (l : List FedRow) (hne : l ≠ [])
    (hle : x ≤ (l.getD 0 default).income) :
    calc_federal_rows x l
      = (l.getD 0 default).base
        + ((x - (l.getD 0 default).income) / 100) * safe_per100 ((l.getD 0 default).per100) := by
  cases l with
  | nil => exact absurd rfl hne
  | cons r0 rest =>
    rw [calc_federal_rows, if_pos (by simpa using hle)]
    simp

theorem calc_federal_rows_of_find (x : ℚ) (l : List FedRow) (hne : l ≠ [])
    (hgt : ¬ x ≤ (l.getD 0 default).income) (r : FedRow) (hf : find_bracket x l = some r) :
    calc_federal_rows x l = r.base + ((x - r.income) / 100) * safe_per100 r.per100 := by
  cases l with
  | nil => exact absurd rfl hne
  | cons r0 rest =>
    rw [calc_federal_rows, if_neg (by simpa using hgt), hf]

theorem calc_federal_rows_of_none (x : ℚ) (l : List FedRow) (hne : l ≠ [])
    (hgt : ¬ x ≤ (l.getD 0 default).income) (hf : find_bracket x l = none) :
    calc_federal_rows x l
      = (l.getD (l.length - 1) default).base
        + (x - (l.getD (l.length - 1) default).income) * (115/1000) := by
  cases l with
  | nil => exact absurd rfl hne
  | cons r0 rest =>
    rw [calc_federal_rows, if_neg (by simpa using hgt), hf]
    rw [getLastD_eq_getD (r0 :: rest) r0 (by simp),
      getD_default_irrel (r0 :: rest) ((r0 :: rest).length - 1) (by simp) r0 default]

/-- Every member of a sorted table with index at most `i` has income at
most the income of row `i`. -/
theorem sorted_mem_income_le (table : List FedRow)
    (hs : table.Pairwise (fun a b => a.income < b.income))
    (i : ℕ) (hlast : i + 1 = table.length) :
    ∀ r ∈ table, r.income ≤ (table.getD i default).income := by
  intro r hr
  obtain ⟨n, hn⟩ := List.mem_iff_get.mp hr
  have hd : r = table.getD n.1 default := by
    rw [List.getD_eq_getElem table default n.2, ← hn]
    simp [List.get_eq_getElem]
  subst hd
  rcases Nat.lt_or_ge n.1 i with h | h
  · exact le_of_lt (pairwise_getD_lt table hs n.1 i (by omega) h)
  · have : n.1 = i := by have := n.2; omega
    rw [this]

/-- **C4 amended.**  For a tariff table whose rows are strictly increasing
in `income` with a non-negative first threshold: evaluating at
`threshold_i` returns exactly `base_i`; evaluating at `threshold_i + 100`
returns `base_i + safe_per100(per100_i)` — the per-100 amount *after* the
clamp that maps negatives to 0 and values above 20 to 11.5 — provided the
next threshold lies strictly beyond `threshold_i + 100`; past the last row
the flat 11.5% marginal rate applies instead, giving `base + 100·0.115`. -/
theorem federal_tariff_boundary (table : List FedRow)
    (hs : table.Pairwise (fun a b => a.income < b.income))
    (h0 : 0 ≤ (table.getD 0 default).income)
    (i : ℕ) (hi : i < table.length) :
    calc_federal ((table.getD i default).income) table = (table.getD i default).base
    ∧ (i + 1 < table.length →
        (table.getD i default).income + 100 < (table.getD (i + 1) default).income →
        calc_federal ((table.getD i default).income + 100) table
          = (table.getD i default).base + safe_per100 ((table.getD i default).per100))
    ∧ (i + 1 = table.length →
        calc_federal ((table.getD i default).income + 100) table
          = (table.getD i default).base + 100 * (115/1000)) := by
  have hne : table ≠ [] := by
    intro h
    rw [h] at hi
    simp at hi
  have h0i : 0 ≤ (table.getD i default).income := by
    rcases Nat.eq_zero_or_pos i with hz | hpos
    · subst hz; exact h0
    · exact le_trans h0 (le_of_lt (pairwise_getD_lt table hs 0 i hi hpos))
  have hsort : sort_rows table = table := sort_rows_of_sorted table (hs.imp le_of_lt)
  refine ⟨?_, ?_, ?_⟩
  · -- x = threshold_i
    rw [calc_federal, hsort, max_eq_right h0i]
    rcases Nat.eq_zero_or_pos i with hz | hpos
    · subst hz
      rw [calc_federal_rows_head _ _ hne (le_refl _)]
      simp
    · have hgt : ¬ (table.getD i default).income ≤ (table.getD 0 default).income :=
        not_le.mpr (pairwise_getD_lt table hs 0 i hi hpos)
      rcases Nat.lt_or_ge (i + 1) table.length with hnl | hnl
      · rw [calc_federal_rows_of_find _ _ hne hgt _
          (find_bracket_at _ table hs i hnl (le_refl _)
            (pairwise_getD_lt table hs i (i + 1) hnl (Nat.lt_succ_self i)))]
        simp
      · have hlast : i + 1 = table.length := by omega
        rw [calc_federal_rows_of_none _ _ hne hgt
          (find_bracket_none _ table (sorted_mem_income_le table hs i hlast))]
        have hidx : table.length - 1 = i := by omega
        rw [hidx]
        simp
  · -- x = threshold_i + 100, next row beyond it
    intro hnl hgap
    have hx0 : 0 ≤ (table.getD i default).income + 100 := by linarith
    rw [calc_federal, hsort, max_eq_right hx0]
    have hgt : ¬ (table.getD i default).income + 100 ≤ (table.getD 0 default).income := by
      rcases Nat.eq_zero_or_pos i with hz | hpos
      · subst hz; intro h; linarith
      · have := pairwise_getD_lt table hs 0 i hi hpos
        intro h; linarith
    rw [calc_federal_rows_of_find _ _ hne hgt _
      (find_bracket_at _ table hs i hnl (by linarith) hgap)]
    have : ((table.getD i default).income + 100 - (table.getD i default).income) / 100 = 1 := by
      ring_nf
    rw [this, one_mul]
  · -- x = threshold_i + 100 past the last row
    intro hlast
    have hx0 : 0 ≤ (table.getD i default).income + 100 := by linarith
    rw [calc_federal, hsort, max_eq_right hx0]
    have hgt : ¬ (table.getD i default).income + 100 ≤ (table.getD 0 default).income := by
      rcases Nat.eq_zero_or_pos i with hz | hpos
      · subst hz; intro h; linarith
      · have := pairwise_getD_lt table hs 0 i hi hpos
        intro h; linarith
    have hall : ∀ r ∈ table, r.income ≤ (table.getD i default).income + 100 := by
      intro r hr
      have := sorted_mem_income_le table hs i hlast r hr
      linarith
    rw [calc_federal_rows_of_none _ _ hne hgt (find_bracket_none _ table hall)]
    have hidx : table.length - 1 = i := by omega
    rw [hidx]
    ring

/-- The shipped default federal table is strictly increasing in income. -/
theorem default_federal_pairwise :
    DEFAULT_FEDERAL_TABLE.Pairwise (fun a b => a.income < b.income) := by
  haveI : IsTrans FedRow (fun a b => a.income < b.income) :=
    ⟨fun a b c h1 h2 => lt_trans h1 h2⟩
  rw [← List.chain'_iff_pairwise]
  simp only [DEFAULT_FEDERAL_TABLE, fed_rows_1, fed_rows_2, fed_rows_3, List.cons_append,
    List.nil_append, List.chain'_cons, List.chain'_singleton]
  norm_num

theorem sort_default_federal : sort_rows DEFAULT_FEDERAL_TABLE = DEFAULT_FEDERAL_TABLE :=
  sort_rows_of_sorted _ (default_federal_pairwise.imp le_of_lt)

/-- **C4 counterexample.**  Row 13 of the default table is
`{income 33000, base 137.06, per100 33}`.  At `x = 33000 + 100` the code
returns `137.06 + 11.5` — `_safe_per100` replaces the row's `per100 = 33`
(which exceeds 20) by 11.5 — not the claimed `137.06 + 33`. -/
theorem federal_tariff_boundary_counterexample :
    DEFAULT_FEDERAL_TABLE.getD 13 default = ⟨33000, 6853/50, 33⟩
    ∧ calc_federal (33000 + 100) DEFAULT_FEDERAL_TABLE = 6853/50 + 23/2
    ∧ (6853/50 + 23/2 : ℚ) ≠ 6853/50 + 33 := by
  have h13 : DEFAULT_FEDERAL_TABLE.getD 13 default = ⟨33000, 6853/50, 33⟩ := rfl
  have h14 : DEFAULT_FEDERAL_TABLE.getD 14 default = ⟨33200, 693/5, 35⟩ := rfl
  have h0 : DEFAULT_FEDERAL_TABLE.getD 0 default = ⟨18500, 2541/100, 77/100⟩ := rfl
  refine ⟨h13, ?_, by norm_num⟩
  have hmax : max 0 ((33000 : ℚ) + 100) = 33100 := by norm_num
  rw [calc_federal, sort_default_federal, hmax]
  have hne : DEFAULT_FEDERAL_TABLE ≠ [] := by decide
  have hgt : ¬ (33100 : ℚ) ≤ (DEFAULT_FEDERAL_TABLE.getD 0 default).income := by
    rw [h0]; norm_num
  rw [calc_federal_rows_of_find 33100 _ hne hgt _
    (find_bracket_at 33100 DEFAULT_FEDERAL_TABLE default_federal_pairwise 13
      (by decide) (by rw [h13]; norm_num) (by rw [h14]; norm_num))]
  rw [h13]
  show (6853/50 : ℚ) + ((33100 - 33000) / 100) * safe_per100 33 = 6853/50 + 23/2
  rw [show safe_per100 33 = 23/2 from by norm_num [safe_per100]]
  norm_num

/-- Small strictly-increasing table exercising the amended C4. -/
def tblC4 : List FedRow := [⟨1000, 10, 2⟩, ⟨2000, 30, 15⟩, ⟨5000, 80, 25⟩]

theorem federal_tariff_boundary_witness :
    calc_federal ((tblC4.getD 1 default).income) tblC4 = (tblC4.getD 1 default).base
    ∧ calc_federal ((tblC4.getD 1 default).income + 100) tblC4
        = (tblC4.getD 1 default).base + safe_per100 ((tblC4.getD 1 default).per100) := by
  have hp : tblC4.Pairwise (fun a b => a.income < b.income) := by
    unfold tblC4
    refine List.Pairwise.cons ?_ (List.Pairwise.cons ?_ (List.pairwise_singleton _ _))
    · intro b hb
      rcases List.mem_cons.mp hb with rfl | hb2
      · norm_num
      · rcases List.mem_cons.mp hb2 with rfl | h3
        · norm_num
        · simp at h3
    · intro b hb
      rcases List.mem_cons.mp hb with rfl | hb2
      · norm_num
      · simp at hb2
  have h := federal_tariff_boundary tblC4 hp
    (by rw [show tblC4.getD 0 default = ⟨1000, 10, 2⟩ from rfl]; norm_num) 1 (by decide)
  exact ⟨h.1, h.2.1 (by decide)
    (by rw [show tblC4.getD 1 default = ⟨2000, 30, 15⟩ from rfl,
          show tblC4.getD 2 default = ⟨5000, 80, 25⟩ from rfl]
        norm_num)⟩

/-! ## Yearly tax aggregation (`services._collect_yearly_tax`)

Transaction documents are Mongo dicts; optional fields are `Option`, with
`none` for an absent key (the repository omits `taxable_amount` when
unset and stores every other key, possibly as `None`; Python `or`
coalescing treats `None` and `0`/`""` alike, captured by `pyOrI`/`pyOrS`). -/

/-- A stored transaction document, restricted to the keys the simulation
and tax code read. -/
structure TxDoc where
  id : Option String := none
  type : Option String := none
  name : Option String := none
  amount : Option ℚ := none
  start_year : Option ℤ := none
  start_month : Option ℤ := none
  end_year : Option ℤ := none
  end_month : Option ℤ := none
  frequency : Option ℕ := none
  annual_growth_rate : Option ℚ := none
  annual_interest_rate : Option ℚ := none
  taxable : Bool := false
  taxable_amount : Option ℚ := none
  entry : Option String := none
  double_entry : Bool := false
  counter_asset_id : Option String := none
  asset_id : Option String := none
  mortgage_asset_id : Option String := none
  scenario_id : Option String := none
  rate_schedule : List (Option ℤ × Option ℤ × Option ℚ) := []
  inflation_schedule : List InflEntry := []
  deriving Repr, DecidableEq

/-- Python `x or default` for optional integers (`None` and `0` falsy). -/
def pyOrI (o : Option ℤ) (d : ℤ) : ℤ :=
  match o with
  | some v => if v = 0 then d else v
  | none => d

/-- Python `x or default` for optional strings (`None` and `""` falsy). -/
def pyOrS (o : Option String) (d : String) : String :=
  match o with
  | some s => if s = "" then d else s
  | none => d

/-- One expense-detail dict as read back from the simulation cash flows. -/
structure CFDetail where
  tx_type : Option String := none
  transaction_id : Option String := none
  name : Option String := none
  amount : Option ℚ := none
  deriving Repr, DecidableEq

/-- A cash-flow record as consumed by `_collect_yearly_tax` (only the date
year and the expense details are read). -/
structure CFEntry where
  date : Option (ℤ × ℤ) := none
  expense_details : List CFDetail := []
  deriving Repr, DecidableEq

/-- Scenario document fields read by the tax computation, plus
`num_children` and `tax_account_id`, which the repository stores (and the
tax code never reads). -/
structure Scenario where
  municipal_tax_factor : Option ℚ := none
  cantonal_tax_factor : Option ℚ := none
  church_tax_factor : Option ℚ := none
  personal_tax_per_person : Option ℚ := none
  num_children : Option ℤ := none
  tax_account_id : Option String := none
  deriving Repr, DecidableEq

/-- Yearly taxable-income accumulator entry `{income, expense, net}`. -/
structure YearEntry where
  income : ℚ := 0
  expense : ℚ := 0
  net : ℚ := 0
  deriving Repr, DecidableEq

/-- `add_entry`: dict update-in-place on an existing year, append for a new
year (insertion-ordered map). -/
def add_entry : List (ℤ × YearEntry) → ℤ → ℚ → ℚ → List (ℤ × YearEntry)
  | [], year, ia, ea => [(year, ⟨ia, ea, ia - ea⟩)]
  | (y, e) :: rest, year, ia, ea =>
    if y = year then
      (y, ⟨e.income + ia, e.expense + ea, (e.income + ia) - (e.expense + ea)⟩) :: rest
    else (y, e) :: add_entry rest year ia ea

/-- Ids of taxable mortgage-interest transactions (Python builds a set;
only membership is observed downstream). -/
def taxable_mortgage_ids (txs : List TxDoc) : List String :=
  txs.foldl (fun acc tx =>
    if tx.type = some "mortgage_interest" ∧ tx.taxable = true then
      match tx.id with
      | some s => if s = "" then acc else acc ++ [s]
      | none => acc
    else acc) []

/-- Names of taxable mortgage-interest transactions. -/
def taxable_mortgage_names (txs : List TxDoc) : List String :=
  txs.foldl (fun acc tx =>
    if tx.type = some "mortgage_interest" ∧ tx.taxable = true then
      match tx.name with
      | some s => if s = "" then acc else acc ++ [s]
      | none => acc
    else acc) []

/-- `while m > 12: m -= 12; y += 1`. -/
def norm_ym (y m : ℤ) : ℤ × ℤ :=
  if h : m > 12 then norm_ym (y + 1) (m - 12) else (y, m)
  termination_by m.toNat
  decreasing_by omega

/-- The occurrence walk for taxable regular transactions, stepping by
`frequency` months; the fuel models the `counter > 1000` safety break
(`1000` initial fuel allows the same 1001 iterations as the Python
counter). -/
def regular_walk (endY endM : ℤ) (freq : ℕ) (isExpense : Bool) (amount : ℚ) :
    ℕ → ℤ → ℤ → List (ℤ × YearEntry) → List (ℤ × YearEntry)
  | 0, y, m, store =>
    if y < endY ∨ (y = endY ∧ m ≤ endM) then
      add_entry store y (if isExpense then 0 else amount) (if isExpense then amount else 0)
    else store
  | fuel + 1, y, m, store =>
    if y < endY ∨ (y = endY ∧ m ≤ endM) then
      let store2 :=
        add_entry store y (if isExpense then 0 else amount) (if isExpense then amount else 0)
      let next := norm_ym y (m + (freq : ℤ))
      regular_walk endY endM freq isExpense amount fuel next.1 next.2 store2
    else store

/-- Processing of one transaction document in the taxable scan: skip
non-taxable and mortgage-interest docs; walk occurrences for regular ones;
credit the start year once otherwise. -/
def collect_taxable_tx (store : List (ℤ × YearEntry)) (tx : TxDoc) : List (ℤ × YearEntry) :=
  if tx.taxable = false then store
  else
    let amount := |(tx.taxable_amount.orElse (fun _ => tx.amount)).getD 0|
    if tx.type = some "mortgage_interest" then store
    else
      let start_year := pyOrI tx.start_year 0
      let start_month := pyOrI tx.start_month 1
      let end_year := pyOrI tx.end_year start_year
      let end_month := pyOrI tx.end_month start_month
      let freq := max 1 (tx.frequency.getD 1)
      let isExpense : Bool := (tx.entry == some "credit") || decide (tx.amount.getD 0 < 0)
      if tx.type = some "regular" then
        regular_walk end_year end_month freq isExpense amount 1000 start_year start_month store
      else
        add_entry store start_year (if isExpense = true then 0 else amount)
          (if isExpense = true then amount else 0)

/-- Extraction of effective mortgage-interest payments from the simulated
cash flows: matching expense details (by transaction id, else name) are
charged as expenses to their year. -/
def collect_mortgage_expenses (store : List (ℤ × YearEntry)) (cash_flows : List CFEntry)
    (ids names : List String) : List (ℤ × YearEntry) :=
  if ids = [] ∧ names = [] then store
  else
    cash_flows.foldl (fun st ent =>
      match ent.date with
      | none => st
      | some (yr, _) =>
        if yr = 0 then st
        else
          ent.expense_details.foldl (fun st2 detail =>
            if (pyOrS detail.tx_type "").toLower ≠ "mortgage_interest" then st2
            else
              let byId := truthyS detail.transaction_id
                && ids.contains (detail.transaction_id.getD "")
              let byName := truthyS detail.name && names.contains (detail.name.getD "")
              if byId || byName then
                let amount := |detail.amount.getD 0|
                if amount = 0 then st2 else add_entry st2 yr 0 amount
              else st2) st) store

/-- `wealth_per_year`: last-seen total per calendar year, keys in first
appearance order. -/
def upsert_year (acc : List (ℤ × ℚ)) (year : ℤ) (v : ℚ) : List (ℤ × ℚ) :=
  match acc with
  | [] => [(year, v)]
  | (y, w) :: rest => if y = year then (y, v) :: rest else (y, w) :: upsert_year rest year v

def wealth_per_year (total_history : List ((ℤ × ℤ) × ℚ)) : List (ℤ × ℚ) :=
  total_history.foldl (fun acc ent => upsert_year acc ent.1.1 ent.2) []

/-- Ascending insertion sort on integers (`sorted(...)` on year sets). -/
def insert_int (n : ℤ) : List ℤ → List ℤ
  | [] => [n]
  | x :: xs => if n ≤ x then n :: x :: xs else x :: insert_int n xs

def sort_ints (l : List ℤ) : List ℤ := l.foldr insert_int []

/-- Set-union semantics: keep first occurrences. -/
def dedup_ints (l : List ℤ) : List ℤ :=
  l.foldl (fun acc x => if acc.contains x then acc else acc ++ [x]) []

/-- One row of the yearly tax result. -/
structure YearlyTaxRow where
  year : ℤ
  net : ℚ
  wealth : Option ℚ
  incomeTax : ℚ
  wealthTax : ℚ
  baseTax : ℚ
  personalTax : ℚ
  taxTotal : ℚ
  federalTax : ℚ
  totalAll : ℚ
  deriving Repr, DecidableEq

instance : Inhabited YearlyTaxRow := ⟨⟨0, 0, none, 0, 0, 0, 0, 0, 0, 0⟩⟩

/-- Construction of one year's row from the aggregates (services.py lines
408-437). -/
def mk_year_row (store : List (ℤ × YearEntry)) (wy : List (ℤ × ℚ))
    (mun cant church pers : ℚ) (year : ℤ) : YearlyTaxRow :=
  let net_income := ((store.find? (fun p => p.1 == year)).map (fun p => p.2.net)).getD 0
  let wealth_val := (wy.find? (fun p => p.1 == year)).map (fun p => p.2)
  let income_tax := calc_progressive net_income DEFAULT_INCOME_BRACKETS
  let wealth_tax :=
    match wealth_val with
    | some w => calc_progressive w DEFAULT_WEALTH_BRACKETS
    | none => 0
  let base_tax := income_tax + wealth_tax
  let tax_total := base_tax * mun + base_tax * cant + base_tax * church + pers
  let federal_tax := calc_federal net_income DEFAULT_FEDERAL_TABLE
  { year := year, net := net_income, wealth := wealth_val, incomeTax := income_tax,
    wealthTax := wealth_tax, baseTax := base_tax, personalTax := pers,
    taxTotal := tax_total, federalTax := federal_tax, totalAll := tax_total + federal_tax }

/-- `_collect_yearly_tax`.  The scenario factors use the `dict.get`
defaults 1.15 / 0.98 / 0.14 / 24; the bracket and federal tables are the
module-level defaults (the scenario's configured tariffs are not
consulted). -/
def collect_yearly_tax (transactions : List TxDoc) (cash_flows : List CFEntry)
    (total_history : List ((ℤ × ℤ) × ℚ)) (scenario : Scenario) : List YearlyTaxRow :=
  let ids := taxable_mortgage_ids transactions
  let names := taxable_mortgage_names transactions
  let store1 := transactions.foldl collect_taxable_tx []
  let store2 := collect_mortgage_expenses store1 cash_flows ids names
  let wy := wealth_per_year total_history
  let mun := scenario.municipal_tax_factor.getD (115/100)
  let cant := scenario.cantonal_tax_factor.getD (98/100)
  let church := scenario.church_tax_factor.getD (14/100)
  let pers := scenario.personal_tax_per_person.getD 24
  let years := sort_ints (dedup_ints (store2.map (fun p => p.1) ++ wy.map (fun p => p.1)))
  years.map (mk_year_row store2 wy mun cant church pers)

/-- `_calc_federal` of the default table at zero taxable income: the first
row's formula extrapolates below the 18500 threshold with no floor,
giving `25.41 - 185 * 0.77 = -117.04`. -/
theorem calc_federal_zero_default : calc_federal 0 DEFAULT_FEDERAL_TABLE = -2926/25 := by
  rw [calc_federal, sort_default_federal, show max (0 : ℚ) 0 = 0 from by norm_num,
    calc_federal_rows_head 0 _ (by decide)
      (by rw [show DEFAULT_FEDERAL_TABLE.getD 0 default = ⟨18500, 2541/100, 77/100⟩ from rfl]
          norm_num),
    show DEFAULT_FEDERAL_TABLE.getD 0 default = ⟨18500, 2541/100, 77/100⟩ from rfl]
  show (2541/100 : ℚ) + ((0 - 18500) / 100) * safe_per100 (77/100) = -2926/25
  rw [show safe_per100 (77/100) = 77/100 from by norm_num [safe_per100]]
  norm_num

/-- **C5 amended.**  Every yearly tax row reports
`federalTax = _calc_federal(net, DEFAULT_FEDERAL_TABLE)` — the federal
tariff at the year's net taxable income, with no child deduction ever
subtracted (the scenario's `num_children` and any table's
`child_deduction_per_child` are stored but never read here). -/
theorem yearly_federal_tax_eq (transactions : List TxDoc) (cash_flows : List CFEntry)
    (total_history : List ((ℤ × ℤ) × ℚ)) (scenario : Scenario) :
    ∀ row ∈ collect_yearly_tax transactions cash_flows total_history scenario,
      row.federalTax = calc_federal row.net DEFAULT_FEDERAL_TABLE := by
  intro row hrow
  simp only [collect_yearly_tax] at hrow
  obtain ⟨year, hy, rfl⟩ := List.mem_map.mp hrow
  rfl

/-- The claim's per-year federal formula, following the specification's
words (§4.6): federal tariff at net income minus the per-child deduction
times the number of children.  Second definition, for comparison with the
code. -/
def spec_federal_with_children (net childDeduction : ℚ) (numChildren : ℤ) : ℚ :=
  calc_federal net DEFAULT_FEDERAL_TABLE - childDeduction * numChildren

/-- Scenario with one child, as the repository stores it. -/
def scnC5 : Scenario := { num_children := some 1 }

/-- **C5 counterexample.**  A scenario with `num_children = 1` and a table
child deduction of 251 per child: the reported row carries
`federalTax = _calc_federal(0) = -117.04`, not the claimed
`-117.04 - 251`. -/
theorem yearly_federal_tax_counterexample :
    ((collect_yearly_tax [] [] [((2024, 12), 0)] scnC5).map (fun r => r.federalTax)) = [-2926/25]
    ∧ ((collect_yearly_tax [] [] [((2024, 12), 0)] scnC5).map (fun r => r.net)) = [0]
    ∧ scnC5.num_children = some 1
    ∧ spec_federal_with_children 0 251 1 = -2926/25 - 251
    ∧ (-2926/25 : ℚ) ≠ -2926/25 - 251 := by
  have hrow : collect_yearly_tax [] [] [((2024, 12), 0)] scnC5
      = [mk_year_row [] [(2024, 0)] (115/100) (98/100) (14/100) 24 2024] := rfl
  refine ⟨?_, ?_, rfl, ?_, by norm_num⟩
  · rw [hrow]
    simp only [List.map_cons, List.map_nil, List.cons.injEq, and_true]
    show calc_federal 0 DEFAULT_FEDERAL_TABLE = -2926/25
    exact calc_federal_zero_default
  · rw [hrow]
    simp only [List.map_cons, List.map_nil]
    rfl
  · show calc_federal 0 DEFAULT_FEDERAL_TABLE - 251 * 1 = -2926/25 - 251
    rw [calc_federal_zero_default]
    norm_num

theorem yearly_federal_tax_eq_witness :
    ((collect_yearly_tax [] [] [((2024, 12), 0)] scnC5).getD 0 default).federalTax
      = calc_federal ((collect_yearly_tax [] [] [((2024, 12), 0)] scnC5).getD 0 default).net
          DEFAULT_FEDERAL_TABLE :=
  yearly_federal_tax_eq [] [] [((2024, 12), 0)] scnC5 _
    (getD_mem default (collect_yearly_tax [] [] [((2024, 12), 0)] scnC5) 0 (by decide))

/-- **C10.**  At taxable income 0 (below the first threshold 18500 of the
default table, whose row is `base 25.41, per100 0.77`), the federal tariff
returns the strictly negative `-117.04`, and a collected yearly tax row
reports that negative `federalTax`. -/
theorem federal_tax_negative_at_zero :
    calc_federal 0 DEFAULT_FEDERAL_TABLE = -2926/25
    ∧ calc_federal 0 DEFAULT_FEDERAL_TABLE < 0
    ∧ ((collect_yearly_tax [] [] [((2025, 12), 0)] {}).map (fun r => r.federalTax)) = [-2926/25]
    ∧ (-2926/25 : ℚ) < 0 := by
  have hrow : collect_yearly_tax [] [] [((2025, 12), 0)] {}
      = [mk_year_row [] [(2025, 0)] (115/100) (98/100) (14/100) 24 2025] := rfl
  refine ⟨calc_federal_zero_default, ?_, ?_, by norm_num⟩
  · rw [calc_federal_zero_default]; norm_num
  · rw [hrow]
    simp only [List.map_cons, List.map_nil, List.cons.injEq, and_true]
    show calc_federal 0 DEFAULT_FEDERAL_TABLE = -2926/25
    exact calc_federal_zero_default

/-! ## Tax convergence driver (`services.run_scenario_simulation`, the
`for _ in range(max_iterations)` loop)

The loop body composes `simulate_with_taxes` and `_collect_yearly_tax`
into one round function from injected tax transactions to fresh yearly
rows; the driver is stated over that round function `F`, which the claims
quantify over (it is determined by the stored scenario data). -/

/-- Identifier context for `taxes_to_transactions`. -/
structure DriverCfg where
  scenario_id : Option String := none
  tax_account_id : Option String := none
  first_asset_id : String := "a0"
  deriving Repr, DecidableEq

/-- `taxes_to_transactions`: one December one-time charge of `-|totalAll|`
per year with a non-zero total. -/
def taxes_to_transactions (cfg : DriverCfg) (rows : List YearlyTaxRow) : List TxDoc :=
  rows.foldl (fun acc row =>
    if row.totalAll = 0 then acc
    else acc ++ [{ scenario_id := cfg.scenario_id,
                   asset_id := some (pyOrS cfg.tax_account_id cfg.first_asset_id),
                   name := some ("Steuern " ++ toString row.year),
                   amount := some (-|row.totalAll|),
                   type := some "one_time",
                   start_year := some row.year, start_month := some 12,
                   end_year := some row.year, end_month := some 12,
                   frequency := none, annual_growth_rate := some 0,
                   taxable := false }]) []

/-- Stable ascending sort by year (`sorted(rows, key=lambda x: x["year"])`). -/
def insert_row_year (r : YearlyTaxRow) : List YearlyTaxRow → List YearlyTaxRow
  | [] => [r]
  | x :: xs => if r.year ≤ x.year then r :: x :: xs else x :: insert_row_year r xs

def sort_rows_by_year (l : List YearlyTaxRow) : List YearlyTaxRow := l.foldr insert_row_year []

/-- The convergence check of the driver: same number of rows, pairwise
equal years after sorting, and `|new.totalAll - prev.totalAll| < 0.01` on
every matched year. -/
def converged (tax_rows new_tax_rows : List YearlyTaxRow) : Bool :=
  if new_tax_rows.length = tax_rows.length then
    let pairs := (sort_rows_by_year new_tax_rows).zip (sort_rows_by_year tax_rows)
    let same_years := pairs.all (fun pr => pr.1.year == pr.2.year)
    let diffs_ok := pairs.all (fun pr =>
      if pr.1.year == pr.2.year then
        (if |pr.1.totalAll - pr.2.totalAll| < 1/100 then true else false)
      else true)
    same_years && diffs_ok
  else false

/-- Result of the fixed-point loop: final rows, the rows of the round
before, the number of simulate-then-recompute rounds performed, and
whether the convergence break fired. -/
structure DriverResult where
  rows : List YearlyTaxRow
  prev : List YearlyTaxRow
  rounds : ℕ
  broke_early : Bool
  deriving Repr, DecidableEq

/-- The loop: each recursive step is one `simulate → _collect_yearly_tax →
convergence check → inject tax transactions` round. -/
def tax_driver_loop (cfg : DriverCfg) (F : List TxDoc → List YearlyTaxRow) :
    ℕ → List YearlyTaxRow → List YearlyTaxRow → List TxDoc → ℕ → DriverResult
  | 0, pred, cur, _, count => ⟨cur, pred, count, false⟩
  | fuel + 1, _, cur, txs, count =>
    if converged cur (F txs) then ⟨F txs, cur, count + 1, true⟩
    else tax_driver_loop cfg F fuel cur (F txs) (taxes_to_transactions cfg (F txs)) (count + 1)

/-- `max_iterations = 10`, starting from no rows and no injected charges. -/
def run_tax_driver (cfg : DriverCfg) (F : List TxDoc → List YearlyTaxRow) : DriverResult :=
  tax_driver_loop cfg F 10 [] [] [] 0

/-- The claim's tolerance reading of the last two rounds: every matched
year differs by at most 0.01. -/
def year_diffs_le (prev new : List YearlyTaxRow) : Bool :=
  ((sort_rows_by_year new).zip (sort_rows_by_year prev)).all
    (fun pr =>
      if pr.1.year == pr.2.year then
        (if |pr.1.totalAll - pr.2.totalAll| ≤ 1/100 then true else false)
      else true)

theorem tax_driver_loop_spec (cfg : DriverCfg) (F : List TxDoc → List YearlyTaxRow) :
    ∀ (fuel : ℕ) (pred cur : List YearlyTaxRow) (txs : List TxDoc) (count : ℕ),
      (tax_driver_loop cfg F fuel pred cur txs count).rounds ≤ count + fuel
      ∧ ((tax_driver_loop cfg F fuel pred cur txs count).broke_early = true →
          converged (tax_driver_loop cfg F fuel pred cur txs count).prev
            (tax_driver_loop cfg F fuel pred cur txs count).rows = true) := by
  intro fuel
  induction fuel with
  | zero =>
    intro pred cur txs count
    exact ⟨Nat.le_refl _, fun h => by simp [tax_driver_loop] at h⟩
  | succ fuel ih =>
    intro pred cur txs count
    rw [tax_driver_loop]
    split
    · rename_i hconv
      refine ⟨?_, fun _ => hconv⟩
      show count + 1 ≤ count + (fuel + 1)
      omega
    · have h := ih cur (F txs) (taxes_to_transactions cfg (F txs)) (count + 1)
      exact ⟨by have := h.1; omega, h.2⟩

/-- **C3 amended.**  The driver performs at most 10 simulate-then-recompute
rounds; whenever it stops early through the convergence break, the final
round's per-year `totalAll` differs from the previous round's by less than
0.01 on every (identical) year.  When the 10-round cap is exhausted no
tolerance bound holds (see the counterexample). -/
theorem tax_driver_rounds_and_tolerance (cfg : DriverCfg)
    (F : List TxDoc → List YearlyTaxRow) :
    (run_tax_driver cfg F).rounds ≤ 10
    ∧ ((run_tax_driver cfg F).broke_early = true →
        converged (run_tax_driver cfg F).prev (run_tax_driver cfg F).rows = true) :=
  tax_driver_loop_spec cfg F 10 [] [] [] 0

/-- A round function that converges immediately. -/
def F_empty : List TxDoc → List YearlyTaxRow := fun _ => []

theorem tax_driver_rounds_and_tolerance_witness :
    (run_tax_driver {} F_empty).rounds ≤ 10
    ∧ converged (run_tax_driver {} F_empty).prev (run_tax_driver {} F_empty).rows = true :=
  ⟨(tax_driver_rounds_and_tolerance {} F_empty).1,
   (tax_driver_rounds_and_tolerance {} F_empty).2 rfl⟩

/-- A single-year row with the given `totalAll`. -/
def mk_osc_row (t : ℚ) : YearlyTaxRow :=
  { year := 2024, net := 0, wealth := none, incomeTax := 0, wealthTax := 0, baseTax := 0,
    personalTax := 0, taxTotal := 0, federalTax := 0, totalAll := t }

/-- A round function describing a 2-cycle: with no injected charges the
year owes 100; injecting a charge of `c` makes the next round owe
`300 - |c|`, so the rows oscillate 100, 200, 100, 200, … -/
def F_osc (txs : List TxDoc) : List YearlyTaxRow :=
  match txs with
  | [] => [mk_osc_row 100]
  | t :: _ => [mk_osc_row (300 + t.amount.getD 0)]

/-- **C3 counterexample.**  With the oscillating round function the loop
exhausts all 10 rounds without the break, and the final round's `totalAll`
(200) differs from the previous round's (100) by 100 > 0.01 — the claimed
tolerance does not hold on termination by cap. -/
theorem tax_driver_counterexample :
    (run_tax_driver {} F_osc).rounds = 10
    ∧ (run_tax_driver {} F_osc).broke_early = false
    ∧ year_diffs_le (run_tax_driver {} F_osc).prev (run_tax_driver {} F_osc).rows = false := by
  norm_num [run_tax_driver, tax_driver_loop, F_osc, converged, sort_rows_by_year,
    insert_row_year, mk_osc_row, year_diffs_le, taxes_to_transactions]

/-! ## Income-tax shocks (`services.run_scenario_simulation` lines 604-640)

`_to_key` is a function local to `_apply_overrides`; the shock-collection
code inside `run_scenario_simulation` references it anyway (lines 616-617,
624, 626-627).  Python raises `NameError` the first time one of those
lines executes, i.e. as soon as an `income_tax_shocks` entry carries a
`pct`.  Fallible evaluation is modelled with `Except`. -/

/-- One `income_tax_shocks` override entry. -/
structure ShockEntry where
  pct : Option ℚ := none
  start_year : Option ℤ := none
  start_month : Option ℤ := none
  end_year : Option ℤ := none
  end_month : Option ℤ := none
  deriving Repr, DecidableEq

/-- The override document (only the list the income-tax code reads). -/
structure Overrides where
  income_tax_shocks : List ShockEntry := []
  deriving Repr, DecidableEq

/-- The shock-collection loop: entries without a `pct` are skipped
(`continue`); the first entry carrying one evaluates `_to_key(...)`
(line 616), which is unbound in this scope. -/
def collect_income_tax_shocks :
    List ShockEntry → Except String (List (ℚ × Option ℤ × Option ℤ))
  | [] => .ok []
  | e :: rest =>
    match e.pct with
    | none => collect_income_tax_shocks rest
    | some _ => .error ("NameError: name _to_key is not defined")

/-- The effective income-tax rate of a run: hard-coded base `0.0`
(line 604, `disable flat tax rate`); unchanged when there are no
overrides or no shock entry has a `pct`; otherwise the computation raises
before any rate is selected.  (Had the collection produced a non-empty
list, line 626 would evaluate `_to_key` again.) -/
def income_tax_rate_for_run (overrides : Option Overrides) : Except String ℚ :=
  match overrides with
  | none => .ok 0
  | some o =>
    match collect_income_tax_shocks o.income_tax_shocks with
    | .error e => .error e
    | .ok [] => .ok 0
    | .ok (_ :: _) => .error ("NameError: name _to_key is not defined")

/-- **C9.**  An income-tax shock with a `pct` makes the simulation raise
`NameError` instead of computing and attaching an effective rate; only
shock lists whose entries all lack `pct` (or absent overrides) survive,
leaving the rate at the hard-coded 0.0 that `_build_transactions` is
called with. -/
theorem income_tax_shock_raises :
    income_tax_rate_for_run (some { income_tax_shocks := [{ pct := some (1/4) }] })
      = Except.error ("NameError: name _to_key is not defined")
    ∧ income_tax_rate_for_run (some { income_tax_shocks := [{ pct := none }] }) = Except.ok 0
    ∧ income_tax_rate_for_run none = Except.ok 0 :=
  ⟨rfl, rfl, rfl⟩
